import Mathlib

/-!
Verification of the audio-capture and speech-model core of the repository
(`src-tauri/src/audio.rs`, `src-tauri/src/whisper.rs`, `src-tauri/src/lib.rs`)
against its specification.

The Rust code is shallowly embedded: each effectful operation becomes a Lean
function over an explicit state, with the outside world (filesystem
canonicalization results, HTTP stream contents, clock readings, the
cooperative-cancellation flag as read at each check point) supplied by an
environment structure, and the externally observable actions (file removal,
network requests, temp-file creation, inference runs) collected in an
effect trace.
-/

namespace Audio

/-- A filesystem path, as its list of components. -/
abbrev Path := List String

/-- Component-wise path containment test: `pathStartsWith p base` models
Rust's `p.starts_with(base)` on `std::path::Path`. -/
def pathStartsWith : Path → Path → Bool
  | _, [] => true
  | [], _ :: _ => false
  | a :: xs, b :: ys => a == b && pathStartsWith xs ys

/-- Errors of `audio.rs` (`enum AudioError`). -/
inductive AudioError where
  | NoDevicesFound
  | DeviceNotFound (id : String)
  | NoDefaultDevice
  | ConfigError (msg : String)
  | StreamError (msg : String)
  | WavWriteError (msg : String)
  | NotRecording
  | DeviceDisconnected
  | InsufficientSpace
  | PermissionDenied
  | DeviceBusy
deriving DecidableEq

/-- Observable filesystem actions of `delete_recording`. -/
inductive FsEffect where
  | removeFile (p : Path)
deriving DecidableEq

/-- Environment for `delete_recording`: the OS-level path canonicalization
(which fails on nonexistent paths), the recordings directory returned by
`get_recordings_dir`, and the outcome of `fs::remove_file`. -/
structure DeleteEnv where
  canon : Path → Except String Path
  recordingsDir : Path
  removeResult : Path → Except String Unit

/-- `AudioRecorder::delete_recording` (audio.rs lines 567-594): canonicalize
the argument and the recordings directory, reject paths outside the
recordings directory, and only then remove the file. -/
def delete_recording (env : DeleteEnv) (filePath : Path) :
    Except AudioError Unit × List FsEffect :=
  match env.canon filePath with
  | .error e => (.error (.WavWriteError ("Invalid path: " ++ e)), [])
  | .ok canonicalPath =>
    match env.canon env.recordingsDir with
    | .error e =>
        (.error (.WavWriteError ("Failed to get recordings dir: " ++ e)), [])
    | .ok canonicalRecordingsDir =>
      if ¬ pathStartsWith canonicalPath canonicalRecordingsDir then
        (.error (.WavWriteError
          "Security error: Cannot delete files outside recordings directory"), [])
      else
        match env.removeResult canonicalPath with
        | .error e =>
            (.error (.WavWriteError ("Failed to delete file: " ++ e)),
             [.removeFile canonicalPath])
        | .ok _ => (.ok (), [.removeFile canonicalPath])

/-- Target sample rate for Whisper.cpp (`WHISPER_SAMPLE_RATE`). -/
def WHISPER_SAMPLE_RATE : Nat := 16000

/-- Minimum required disk space in bytes (`MIN_DISK_SPACE_BYTES`, 100 MB). -/
def MIN_DISK_SPACE_BYTES : Nat := 100 * 1024 * 1024

/-- Sample formats reported by the device config (`cpal::SampleFormat`);
`Other` stands for every format outside the three handled ones. -/
inductive SampleFormatSrc where
  | F32
  | I16
  | U16
  | Other
deriving DecidableEq

/-- The device's default input config, as used by `start_recording`. -/
structure DeviceConfig where
  sampleRate : Nat
  channels : Nat
  sampleFormat : SampleFormatSrc
deriving DecidableEq

/-- The mutable state of `AudioRecorder`. Sample values (`f32`) are modelled
as rationals; none of the verified properties depends on float rounding. -/
structure RecState where
  isRecording : Bool
  samples : List Rat
  currentLevel : Nat
  sourceSampleRate : Nat
  recordingStart : Option Nat
  streamOpen : Bool
  streamError : Option String
  privacyMode : Bool
deriving DecidableEq

/-- Result of a completed recording (`struct RecordingResult`). -/
structure RecordingResult where
  filePath : String
  durationMs : Nat
  privacyMode : Bool
deriving DecidableEq

/-- Observable actions of the recorder control path. -/
inductive RecEffect where
  | checkDisk
  | openStream
  | resample
  | exportWav
deriving DecidableEq

/-- Environment for `start_recording`: the `fs2::available_space` outcome
(an error means the check itself failed), the resolved device, its default
config, and the stream build/play outcomes; `now` is the clock reading taken
for `recording_start`. -/
structure StartEnv where
  diskSpace : Except String Nat
  device : Except AudioError Unit
  defaultConfig : Except String DeviceConfig
  buildStreamResult : Except String Unit
  playResult : Except String Unit
  now : Nat

/-- `AudioRecorder::check_disk_space` (audio.rs lines 210-237): insufficient
space is an error, but a failing check is logged and treated as success. -/
def check_disk_space (diskSpace : Except String Nat) : Except AudioError Unit :=
  match diskSpace with
  | .ok space =>
      if space < MIN_DISK_SPACE_BYTES then .error .InsufficientSpace else .ok ()
  | .error _ => .ok ()

/-- `AudioRecorder::start_recording` (audio.rs lines 271-339): a no-op
success while already recording; otherwise clears the stream error, runs the
disk preflight, resolves device and config, records the source rate, clears
the sample buffer, builds and plays the capture stream, and sets the flags. -/
def start_recording (env : StartEnv) (s : RecState) :
    Except AudioError Unit × RecState × List RecEffect :=
  if s.isRecording then (.ok (), s, [])
  else
    let s1 := { s with streamError := none }
    match check_disk_space env.diskSpace with
    | .error e => (.error e, s1, [.checkDisk])
    | .ok _ =>
      match env.device with
      | .error e => (.error e, s1, [.checkDisk])
      | .ok _ =>
        match env.defaultConfig with
        | .error e => (.error (.ConfigError e), s1, [.checkDisk])
        | .ok config =>
          let s2 := { s1 with sourceSampleRate := config.sampleRate }
          let s3 := { s2 with samples := [] }
          match config.sampleFormat with
          | .Other =>
              (.error (.ConfigError "Unsupported sample format"), s3, [.checkDisk])
          | _ =>
            match env.buildStreamResult with
            | .error e => (.error (.StreamError e), s3, [.checkDisk])
            | .ok _ =>
              match env.playResult with
              | .error e =>
                  (.error (.StreamError e), s3, [.checkDisk, .openStream])
              | .ok _ =>
                  (.ok (),
                   { s3 with
                      streamOpen := true
                      isRecording := true
                      recordingStart := some env.now },
                   [.checkDisk, .openStream])

/-- The stream error callback `err_fn` installed by `build_stream`
(audio.rs lines 359-369): latches a human-readable error and forces the
recording flag false. -/
def streamErrCallback (msg : String) (s : RecState) : RecState :=
  { s with
      streamError := some ("Stream error: " ++ msg)
      isRecording := false }

/-- `AudioRecorder::get_stream_error`. -/
def get_stream_error (s : RecState) : Option String :=
  s.streamError

/-- Environment for `stop_recording`: the clock reading used for the elapsed
duration, and the outcomes of the resampler and the WAV exporter. -/
structure StopEnv where
  now : Nat
  resampleResult : List Rat → Except String (List Rat)
  exportResult : List Rat → Except String String

/-- `AudioRecorder::stop_recording` (audio.rs lines 413-465): fails
`NotRecording` when the flag is clear; otherwise clears flag and level,
drops the stream, computes the duration, snapshots the buffer, fails on an
empty buffer, resamples when the source rate differs from 16 kHz, and
exports to WAV. -/
def stop_recording (env : StopEnv) (s : RecState) :
    Except AudioError RecordingResult × RecState × List RecEffect :=
  if ¬ s.isRecording then (.error .NotRecording, s, [])
  else
    let s1 := { s with isRecording := false, currentLevel := 0, streamOpen := false }
    let durationMs := match s.recordingStart with
      | some t => env.now - t
      | none => 0
    let samples := s1.samples
    if samples.isEmpty then
      (.error (.WavWriteError "No audio data recorded"), s1, [])
    else
      if s.sourceSampleRate ≠ WHISPER_SAMPLE_RATE then
        match env.resampleResult samples with
        | .error e =>
            (.error (.WavWriteError ("Resampler init failed: " ++ e)), s1,
             [.resample])
        | .ok resampled =>
          match env.exportResult resampled with
          | .error e =>
              (.error (.WavWriteError e), s1, [.resample, .exportWav])
          | .ok path =>
              (.ok ⟨path, durationMs, s.privacyMode⟩, s1,
               [.resample, .exportWav])
      else
        match env.exportResult samples with
        | .error e => (.error (.WavWriteError e), s1, [.exportWav])
        | .ok path =>
            (.ok ⟨path, durationMs, s.privacyMode⟩, s1, [.exportWav])

end Audio

namespace Whisper

/-- The three statically known models (`enum WhisperModel`). -/
inductive WhisperModel where
  | Tiny
  | Small
  | Medium
deriving DecidableEq

/-- `WhisperModel::name`. -/
def WhisperModel.name : WhisperModel → String
  | .Tiny => "tiny"
  | .Small => "small"
  | .Medium => "medium"

/-- `WhisperModel::expected_size` in bytes. -/
def WhisperModel.expected_size : WhisperModel → Nat
  | .Tiny => 75 * 1024 * 1024
  | .Small => 500 * 1024 * 1024
  | .Medium => 1500 * 1024 * 1024

/-- The expected SHA-256 hash head used only for logging
(`WhisperModel::expected_hash_prefix` in the source). -/
def WhisperModel.expected_hash_head : WhisperModel → String
  | .Tiny => "be7e29e"
  | .Small => "9ecf779"
  | .Medium => "fd9727b"

/-- `WhisperModel::min_ram_gb`. -/
def WhisperModel.min_ram_gb : WhisperModel → Nat
  | .Tiny => 1
  | .Small => 2
  | .Medium => 4

/-- `WhisperModel::filename`. -/
def WhisperModel.filename (m : WhisperModel) : String :=
  "ggml-" ++ m.name ++ ".bin"

/-- Supported transcription languages (`enum WhisperLanguage`). -/
inductive WhisperLanguage where
  | Auto
  | German
  | English
deriving DecidableEq

/-- `WhisperLanguage::code`. -/
def WhisperLanguage.code : WhisperLanguage → Option String
  | .Auto => none
  | .German => some "de"
  | .English => some "en"

/-- Whisper configuration settings (`struct WhisperSettings`). -/
structure WhisperSettings where
  model : WhisperModel
  language : WhisperLanguage
  useGpu : Bool
deriving DecidableEq

/-- Download progress information (`struct DownloadProgress`). -/
structure DownloadProgress where
  model : WhisperModel
  downloadedBytes : Nat
  totalBytes : Nat
  speedBps : Nat
  complete : Bool
  error : Option String
deriving DecidableEq

/-- Errors of `whisper.rs` (`enum WhisperError`); `IoError` carries the
underlying io error's message. -/
inductive WhisperError where
  | ModelNotDownloaded (name : String)
  | ModelLoadError (msg : String)
  | TranscriptionError (msg : String)
  | DownloadError (msg : String)
  | IoError (msg : String)
  | HashVerificationFailed
  | InsufficientSpace
  | DownloadCancelled
  | InvalidAudioFile (msg : String)
deriving DecidableEq

/-- A single transcription segment with timestamps
(`struct TranscriptionSegment`). -/
structure TranscriptionSegment where
  text : String
  startMs : Int
  endMs : Int
deriving DecidableEq

/-- Result of a transcription (`struct TranscriptionResult`). -/
structure TranscriptionResult where
  text : String
  language : String
  segments : List TranscriptionSegment
  processingTimeMs : Nat
deriving DecidableEq

/-- Existence of the `.downloading` temp file and of the file at the model's
final path, the two filesystem facts `download_model` can change. -/
structure FsState where
  tempExists : Bool
  finalExists : Bool
deriving DecidableEq

/-- Observable actions of `download_model`. -/
inductive DlEffect where
  | httpGet
  | createTemp
  | writeChunk
  | removeTemp
  | logHash (computed expected : String)
  | renameTemp
deriving DecidableEq

/-- One iteration of the download loop, as seen from the code: the value of
the cooperative-cancellation flag at the check preceding the chunk, the
chunk read from the stream, the outcome of `write_all`, whether the 100 ms
progress-republish window elapsed (`tick`), and the speed value that the
wall clock yields for that update. -/
structure ChunkEvent where
  cancelFlag : Bool
  chunkResult : Except String (List Nat)
  writeResult : Except String Unit
  tick : Bool
  speedSample : Nat

/-- Environment for `download_model`: the outcomes of the disk-space query,
the HTTP send, the temp-file creation, the streamed chunks, flush and
rename, and the external SHA-256 hex digest function. -/
structure DlEnv where
  availableSpace : Except String Nat
  sendResult : Except String Unit
  contentLength : Option Nat
  createTempResult : Except String Unit
  chunks : List ChunkEvent
  flushResult : Except String Unit
  renameResult : Except String Unit
  sha256hex : List Nat → String

/-- Output of `download_model`: its return value, the resulting filesystem
facts, the shared `DownloadProgress` cell, and the effect trace. -/
structure DlOut where
  result : Except WhisperError Unit
  fs : FsState
  prog : Option DownloadProgress
  effects : List DlEffect

/-- Accumulated state of the download loop. -/
structure LoopOut where
  result : Except WhisperError Unit
  fs : FsState
  prog : Option DownloadProgress
  downloaded : Nat
  hashed : List Nat
  effects : List DlEffect

/-- The `while let Some(chunk_result) = stream.next()` loop of
`download_model` (whisper.rs lines 410-452): check cancellation, surface the
chunk error, write and hash the chunk, count bytes, and republish progress
on 100 ms ticks. -/
def dlLoop : List ChunkEvent → FsState → Option DownloadProgress → Nat →
    List Nat → List DlEffect → LoopOut
  | [], fs, prog, dl, hs, effs => ⟨.ok (), fs, prog, dl, hs, effs⟩
  | ev :: rest, fs, prog, dl, hs, effs =>
    if ev.cancelFlag then
      ⟨.error .DownloadCancelled, { fs with tempExists := false }, none,
       dl, hs, effs ++ [.removeTemp]⟩
    else
      match ev.chunkResult with
      | .error e => ⟨.error (.DownloadError e), fs, prog, dl, hs, effs⟩
      | .ok chunk =>
        match ev.writeResult with
        | .error e =>
            ⟨.error (.IoError e), fs, prog, dl, hs, effs ++ [.writeChunk]⟩
        | .ok _ =>
          let dl2 := dl + chunk.length
          let prog2 :=
            if ev.tick then
              prog.map (fun p =>
                { p with downloadedBytes := dl2, speedBps := ev.speedSample })
            else prog
          dlLoop rest fs prog2 dl2 (hs ++ chunk) (effs ++ [.writeChunk])

/-- The progress value seeded before the HTTP request (whisper.rs lines
372-383). -/
def dlProgInit (model : WhisperModel) : DownloadProgress :=
  ⟨model, 0, model.expected_size, 0, false, none⟩

/-- The chunk loop of `download_model` as entered from its streaming stage:
the temp file has been created, the seeded progress carries the server's
content length, and nothing has been hashed yet. -/
def dlRun (env : DlEnv) (model : WhisperModel) (fs0 : FsState) : LoopOut :=
  dlLoop env.chunks { fs0 with tempExists := true }
    ((some (dlProgInit model)).map
      (fun p => { p with totalBytes := env.contentLength.getD model.expected_size }))
    0 [] [.httpGet, .createTemp]

/-- `WhisperManager::download_model` (whisper.rs lines 355-481): disk-space
preflight, progress seeding, HTTP GET, temp-file creation, the chunk loop,
flush, hash logging, and the atomic rename to the final path. `fs0` and
`prog0` are the filesystem facts and the shared progress cell at entry. -/
def download_model (env : DlEnv) (model : WhisperModel) (fs0 : FsState)
    (prog0 : Option DownloadProgress) : DlOut :=
  let required_space := model.expected_size * 2
  match env.availableSpace with
  | .error e => ⟨.error (.IoError e), fs0, prog0, []⟩
  | .ok available =>
    if available < required_space then
      ⟨.error .InsufficientSpace, fs0, prog0, []⟩
    else
      let prog1 : Option DownloadProgress := some (dlProgInit model)
      match env.sendResult with
      | .error e => ⟨.error (.DownloadError e), fs0, prog1, [.httpGet]⟩
      | .ok _ =>
        let total_size := env.contentLength.getD model.expected_size
        let prog2 := prog1.map (fun p => { p with totalBytes := total_size })
        match env.createTempResult with
        | .error e => ⟨.error (.IoError e), fs0, prog2, [.httpGet]⟩
        | .ok _ =>
          let lo := dlRun env model fs0
          match lo.result with
          | .error e => ⟨.error e, lo.fs, lo.prog, lo.effects⟩
          | .ok _ =>
            match env.flushResult with
            | .error e => ⟨.error (.IoError e), lo.fs, lo.prog, lo.effects⟩
            | .ok _ =>
              let hash_hex := env.sha256hex lo.hashed
              let effs2 := lo.effects ++
                [.logHash (hash_hex.take 16) model.expected_hash_head]
              match env.renameResult with
              | .error e =>
                  ⟨.error (.IoError e), lo.fs, lo.prog, effs2 ++ [.renameTemp]⟩
              | .ok _ =>
                  ⟨.ok (), ⟨false, true⟩,
                   lo.prog.map (fun p =>
                     { p with complete := true, downloadedBytes := total_size }),
                   effs2 ++ [.renameTemp]⟩

/-- Success test for an `Except` value. -/
def exOk {ε α : Type} : Except ε α → Bool
  | .ok _ => true
  | .error _ => false

/-- A loop iteration on which the download makes normal progress: the
cancellation flag reads false, the chunk arrives, and the write succeeds. -/
def cleanEvent (ev : ChunkEvent) : Bool :=
  !ev.cancelFlag && exOk ev.chunkResult && exOk ev.writeResult

/-- The bytes an iteration contributes to the running hash. -/
def eventBytes (ev : ChunkEvent) : List Nat :=
  match ev.chunkResult with
  | .ok c => c
  | .error _ => []

/-- All bytes of a chunk sequence, in stream order. -/
def eventsBytes : List ChunkEvent → List Nat
  | [] => []
  | ev :: rest => eventBytes ev ++ eventsBytes rest

/-- The model-related mutable state of `WhisperManager`: the settings, the
presence of a live inference context, and the model it was built from. -/
structure MgrState where
  settings : WhisperSettings
  hasContext : Bool
  loadedModel : Option WhisperModel
deriving DecidableEq

/-- Environment for `load_model`: whether each model's artifact file exists,
and the outcome of constructing the inference context from the file. -/
structure LoadEnv where
  modelDownloaded : WhisperModel → Bool
  loadResult : Except String Unit

/-- `WhisperManager::load_model` (whisper.rs lines 494-522): no-op when the
configured model is already loaded with a live context; otherwise requires
the artifact on disk and constructs a fresh context. -/
def load_model (env : LoadEnv) (m : MgrState) :
    Except WhisperError Unit × MgrState :=
  let model := m.settings.model
  if m.loadedModel = some model ∧ m.hasContext then (.ok (), m)
  else if ¬ env.modelDownloaded model then
    (.error (.ModelNotDownloaded model.name), m)
  else
    match env.loadResult with
    | .error e => (.error (.ModelLoadError e), m)
    | .ok _ => (.ok (), { m with hasContext := true, loadedModel := some model })

/-- Sample encodings of a WAV file (`hound::SampleFormat`). -/
inductive WavSampleFormat where
  | int
  | float
deriving DecidableEq

/-- The WAV header fields `transcribe` consults (`hound::WavSpec`). -/
structure WavSpecM where
  channels : Nat
  sampleRate : Nat
  bitsPerSample : Nat
  sampleFormat : WavSampleFormat
deriving DecidableEq

/-- Observable actions of `transcribe` towards the inference engine. -/
inductive TrEffect where
  | createState
  | runFull
deriving DecidableEq

/-- Environment for `transcribe`: the `load_model` environment, the WAV
open/header outcome, the per-sample read results in both encodings, the
engine call outcomes, and the segment data the engine reports. Sample values
(`f32`) are modelled as rationals. -/
structure TrEnv where
  load : LoadEnv
  wavOpen : Except String WavSpecM
  intSamples : List (Except String Int)
  floatSamples : List (Except String Rat)
  createStateResult : Except String Unit
  fullResult : Except String Unit
  numSegments : Except String Nat
  segText : Nat → Except String String
  segT0 : Nat → Except String Int
  segT1 : Nat → Except String Int
  procTimeMs : Nat

/-- The sample-reading step of `transcribe` (whisper.rs lines 565-578):
failing reads are silently dropped (`filter_map(|s| s.ok())`); integer PCM is
scaled by `1 << (bits_per_sample - 1)`. -/
def readSamples (env : TrEnv) (spec : WavSpecM) : List Rat :=
  match spec.sampleFormat with
  | .int =>
    let maxVal : Rat := ((2 : Nat) ^ (spec.bitsPerSample - 1) : Nat)
    (env.intSamples.filterMap Except.toOption).map (fun s => (s : Rat) / maxVal)
  | .float => env.floatSamples.filterMap Except.toOption

/-- The segment-extraction loop of `transcribe` (whisper.rs lines 622-645):
concatenates segment texts separated by spaces and converts the native
segment times to milliseconds by multiplying by 10. -/
def segmentsLoop (env : TrEnv) :
    List Nat → String → List TranscriptionSegment →
    Except WhisperError (String × List TranscriptionSegment)
  | [], acc, segs => .ok (acc, segs)
  | i :: rest, acc, segs =>
    match env.segText i with
    | .error e => .error (.TranscriptionError e)
    | .ok t =>
      match env.segT0 i with
      | .error e => .error (.TranscriptionError e)
      | .ok t0 =>
        match env.segT1 i with
        | .error e => .error (.TranscriptionError e)
        | .ok t1 =>
          segmentsLoop env rest (acc ++ t ++ " ")
            (segs ++ [⟨t, t0 * 10, t1 * 10⟩])

/-- `WhisperManager::transcribe` (whisper.rs lines 537-670): opportunistic
model load, WAV open and sample read, rejection of empty sample sets, fresh
inference state creation, the synchronous inference run, segment extraction,
and the language field of the result. -/
def transcribe (env : TrEnv) (m0 : MgrState) :
    Except WhisperError TranscriptionResult × MgrState × List TrEffect :=
  let loadStep : Except WhisperError Unit × MgrState :=
    if ¬ m0.hasContext then load_model env.load m0 else (.ok (), m0)
  match loadStep with
  | (.error e, m) => (.error e, m, [])
  | (.ok _, m) =>
    if ¬ m.hasContext then
      (.error (.ModelLoadError "Context not available"), m, [])
    else
      match env.wavOpen with
      | .error e => (.error (.InvalidAudioFile e), m, [])
      | .ok spec =>
        let samples := readSamples env spec
        if samples.isEmpty then
          (.error (.InvalidAudioFile "Empty audio file"), m, [])
        else
          match env.createStateResult with
          | .error e => (.error (.TranscriptionError e), m, [.createState])
          | .ok _ =>
            match env.fullResult with
            | .error e =>
                (.error (.TranscriptionError e), m, [.createState, .runFull])
            | .ok _ =>
              match env.numSegments with
              | .error e =>
                  (.error (.TranscriptionError e), m, [.createState, .runFull])
              | .ok n =>
                match segmentsLoop env (List.range n) "" [] with
                | .error e => (.error e, m, [.createState, .runFull])
                | .ok (fullText, segs) =>
                  let detectedLang :=
                    if m.settings.language = WhisperLanguage.Auto then "de"
                    else (m.settings.language.code).getD "auto"
                  (.ok ⟨fullText.trim, detectedLang, segs, env.procTimeMs⟩,
                   m, [.createState, .runFull])

end Whisper

namespace Lib

/-- Observable actions of the `transcribe_audio` command: event emission and
the call into `WhisperManager::transcribe` (which reads the file's samples). -/
inductive TrCmdEffect where
  | emitStarted
  | transcribeCall
  | emitComplete
deriving DecidableEq

/-- Environment for the `transcribe_audio` command: path canonicalization,
the recordings directory, and the (opaque here) result of
`WhisperManager::transcribe`. -/
structure TrCmdEnv where
  canon : Audio.Path → Except String Audio.Path
  recordingsDir : Audio.Path
  transcribeResult : Except String Whisper.TranscriptionResult

/-- The `transcribe_audio` Tauri command (lib.rs lines 777-824): canonicalize
and validate containment in the recordings directory before any event is
emitted or any sample is read by the manager. -/
def transcribe_audio (env : TrCmdEnv) (wavPath : Audio.Path) :
    Except String Whisper.TranscriptionResult × List TrCmdEffect :=
  match env.canon wavPath with
  | .error e => (.error ("Invalid file path: " ++ e), [])
  | .ok canonicalPath =>
    match env.canon env.recordingsDir with
    | .error e => (.error ("Failed to get recordings directory: " ++ e), [])
    | .ok canonicalRecordingsDir =>
      if ¬ Audio.pathStartsWith canonicalPath canonicalRecordingsDir then
        (.error "Access denied: File must be in recordings directory", [])
      else
        match env.transcribeResult with
        | .error e => (.error e, [.emitStarted, .transcribeCall])
        | .ok r => (.ok r, [.emitStarted, .transcribeCall, .emitComplete])

end Lib

/-- Concrete canonicalization for the C1 witness: the recordings directory
resolves to itself, anything else resolves to `/etc/passwd` (modelling a
traversal path such as `../../etc/passwd`). -/
def witnessCanon (q : Audio.Path) : Except String Audio.Path :=
  if q = ["home", "rec"] then .ok ["home", "rec"] else .ok ["etc", "passwd"]

/-- A download environment whose stream fails with a network error on its
first chunk, after the temp file has been created. -/
def netErrEnv : Whisper.DlEnv :=
  ⟨.ok (Whisper.WhisperModel.Tiny.expected_size * 2), .ok (), none, .ok (),
   [⟨false, .error "connection reset", .ok (), false, 0⟩],
   .ok (), .ok (), fun _ => "0000000000000000"⟩

/-- A download environment whose cancellation flag reads true at the first
chunk check. -/
def cancelEnv : Whisper.DlEnv :=
  ⟨.ok (Whisper.WhisperModel.Tiny.expected_size * 2), .ok (), none, .ok (),
   [⟨true, .ok [1, 2], .ok (), false, 0⟩],
   .ok (), .ok (), fun _ => "0000000000000000"⟩

/-- A download environment that runs to completion: two clean chunks, then
flush and rename succeed; the reported digest does not start with any of the
compiled-in expected hash heads. -/
def cleanEnv : Whisper.DlEnv :=
  ⟨.ok (Whisper.WhisperModel.Tiny.expected_size * 2), .ok (), some 5, .ok (),
   [⟨false, .ok [1, 2], .ok (), true, 42⟩, ⟨false, .ok [3], .ok (), false, 0⟩],
   .ok (), .ok (), fun _ => "ffffffffffffffffffff"⟩

/-- A download environment reporting less free space than twice the Tiny
model's expected size. -/
def lowSpaceEnv : Whisper.DlEnv :=
  ⟨.ok (Whisper.WhisperModel.Tiny.expected_size * 2 - 1), .ok (), none, .ok (),
   [], .ok (), .ok (), fun _ => ""⟩

/-- A transcription environment whose WAV file opens but yields no samples
(all reads fail), with a live context assumed in the manager state. -/
def emptyWavEnv : Whisper.TrEnv :=
  ⟨⟨fun _ => true, .ok ()⟩, .ok ⟨1, 16000, 16, .int⟩, [.error "bad sample"],
   [], .ok (), .ok (), .ok 0, fun _ => .ok "", fun _ => .ok 0, fun _ => .ok 0, 3⟩

/-- A transcription environment that succeeds with one sample and one
segment. -/
def okWavEnv : Whisper.TrEnv :=
  ⟨⟨fun _ => true, .ok ()⟩, .ok ⟨1, 16000, 16, .int⟩, [.ok 100], [],
   .ok (), .ok (), .ok 1, fun _ => .ok "hallo", fun _ => .ok 0,
   fun _ => .ok 150, 3⟩

/-- A manager state with a live context for the Small model and language
Auto. -/
def mgrAuto : Whisper.MgrState :=
  ⟨⟨.Small, .Auto, true⟩, true, some .Small⟩

/-- C1: a path whose canonicalized form lies outside the canonicalized
recordings directory is rejected by both `delete_recording` and the
`transcribe_audio` command with the distinct security error, before any
filesystem mutation or read of the file's content (empty effect trace). -/
theorem outside_path_rejected_before_any_effect
    (denv : Audio.DeleteEnv) (tenv : Lib.TrCmdEnv) (p cp d : Audio.Path)
    (hdc : denv.canon p = .ok cp)
    (hdd : denv.canon denv.recordingsDir = .ok d)
    (htc : tenv.canon p = .ok cp)
    (htd : tenv.canon tenv.recordingsDir = .ok d)
    (hout : Audio.pathStartsWith cp d = false) :
    Audio.delete_recording denv p =
      (.error (.WavWriteError
        "Security error: Cannot delete files outside recordings directory"), [])
    ∧ Lib.transcribe_audio tenv p =
      (.error "Access denied: File must be in recordings directory", []) := by
  constructor
  · simp [Audio.delete_recording, hdc, hdd, hout]
  · simp [Lib.transcribe_audio, htc, htd, hout]

/-- Witness for C1 at a concrete traversal attempt (a path canonicalizing
to `/etc/passwd`, outside the recordings directory `/home/rec`). -/
theorem outside_path_rejected_before_any_effect_witness :
    Audio.delete_recording
      ⟨witnessCanon, ["home", "rec"], fun _ => .ok ()⟩
      ["up", "up", "etc", "passwd"] =
      (.error (.WavWriteError
        "Security error: Cannot delete files outside recordings directory"), [])
    ∧ Lib.transcribe_audio
      ⟨witnessCanon, ["home", "rec"], .ok ⟨"", "de", [], 0⟩⟩
      ["up", "up", "etc", "passwd"] =
      (.error "Access denied: File must be in recordings directory", []) := by
  exact outside_path_rejected_before_any_effect
    ⟨witnessCanon, ["home", "rec"], fun _ => .ok ()⟩
    ⟨witnessCanon, ["home", "rec"], .ok ⟨"", "de", [], 0⟩⟩
    ["up", "up", "etc", "passwd"] ["etc", "passwd"] ["home", "rec"]
    rfl rfl rfl rfl (by decide)

/-- C6: starting while already recording is a no-op success: the state is
returned unchanged (buffer kept, stream error kept) and nothing is done (no
disk preflight, no stream opened — empty effect trace). -/
theorem start_recording_idempotent_while_recording
    (env : Audio.StartEnv) (s : Audio.RecState) (h : s.isRecording = true) :
    Audio.start_recording env s = (.ok (), s, []) := by
  simp [Audio.start_recording, h]

/-- Witness for C6: a concrete already-recording state. -/
theorem start_recording_idempotent_while_recording_witness :
    Audio.start_recording
      ⟨.ok 0, .ok (), .error "no config", .ok (), .ok (), 7⟩
      ⟨true, [(1 : Rat)], 5, 44100, some 3, true, some "old error", true⟩ =
      (.ok (), ⟨true, [(1 : Rat)], 5, 44100, some 3, true, some "old error", true⟩, []) :=
  start_recording_idempotent_while_recording
    ⟨.ok 0, .ok (), .error "no config", .ok (), .ok (), 7⟩
    ⟨true, [(1 : Rat)], 5, 44100, some 3, true, some "old error", true⟩ rfl

/-- C7: `stop_recording` fails `NotRecording` whenever the flag is clear,
and, when recording with an empty snapshotted buffer, fails with
`WavWriteError "No audio data recorded"` without any resample or WAV export
(empty effect trace). -/
theorem stop_recording_failure_modes
    (env : Audio.StopEnv) (s : Audio.RecState) :
    (s.isRecording = false →
      Audio.stop_recording env s = (.error .NotRecording, s, []))
    ∧ (s.isRecording = true → s.samples = [] →
      (Audio.stop_recording env s).1 =
        .error (.WavWriteError "No audio data recorded")
      ∧ (Audio.stop_recording env s).2.2 = []) := by
  constructor
  · intro h
    simp [Audio.stop_recording, h]
  · intro h hempty
    simp [Audio.stop_recording, h, hempty]

/-- Witness for C7: a never-started session fails `NotRecording`, and a
recording session with an empty buffer fails with the no-audio-data error
and an empty effect trace. -/
theorem stop_recording_failure_modes_witness :
    Audio.stop_recording ⟨9, fun l => .ok l, fun _ => .ok "out.wav"⟩
      ⟨false, [], 0, 44100, none, false, none, true⟩ =
      (.error .NotRecording, ⟨false, [], 0, 44100, none, false, none, true⟩, [])
    ∧ (Audio.stop_recording ⟨9, fun l => .ok l, fun _ => .ok "out.wav"⟩
        ⟨true, [], 0, 44100, some 2, true, none, true⟩).1 =
        .error (.WavWriteError "No audio data recorded")
    ∧ (Audio.stop_recording ⟨9, fun l => .ok l, fun _ => .ok "out.wav"⟩
        ⟨true, [], 0, 44100, some 2, true, none, true⟩).2.2 = [] := by
  refine ⟨?_, ?_, ?_⟩
  · exact (stop_recording_failure_modes
      ⟨9, fun l => .ok l, fun _ => .ok "out.wav"⟩
      ⟨false, [], 0, 44100, none, false, none, true⟩).1 rfl
  · exact ((stop_recording_failure_modes
      ⟨9, fun l => .ok l, fun _ => .ok "out.wav"⟩
      ⟨true, [], 0, 44100, some 2, true, none, true⟩).2 rfl rfl).1
  · exact ((stop_recording_failure_modes
      ⟨9, fun l => .ok l, fun _ => .ok "out.wav"⟩
      ⟨true, [], 0, 44100, some 2, true, none, true⟩).2 rfl rfl).2

/-- C9: after the stream error callback fires, the recording flag is false,
so every subsequent `stop_recording` fails `NotRecording` with no resample
or export (empty effect trace) and the state unchanged — the captured
samples are never returned; only the latched error string is retrievable via
`get_stream_error`. -/
theorem stream_error_latches_and_blocks_stop
    (env : Audio.StopEnv) (msg : String) (s : Audio.RecState) :
    Audio.stop_recording env (Audio.streamErrCallback msg s) =
      (.error .NotRecording, Audio.streamErrCallback msg s, [])
    ∧ Audio.get_stream_error (Audio.streamErrCallback msg s) =
      some ("Stream error: " ++ msg) := by
  constructor
  · simp [Audio.stop_recording, Audio.streamErrCallback]
  · simp [Audio.get_stream_error, Audio.streamErrCallback]

/-- An `Except` value passes `exOk` exactly when it is an `ok`. -/
theorem exOk_iff {ε α : Type} (x : Except ε α) :
    Whisper.exOk x = true ↔ ∃ c, x = .ok c := by
  cases x <;> simp [Whisper.exOk]

/-- Through any run of clean iterations, once the cancellation flag reads
true the loop removes the temp file, clears progress, and returns
`DownloadCancelled`. -/
theorem dlLoop_cancel (ev : Whisper.ChunkEvent) (hev : ev.cancelFlag = true)
    (rest : List Whisper.ChunkEvent) :
    ∀ pre, (∀ e ∈ pre, Whisper.cleanEvent e = true) →
    ∀ fs prog dl hs effs,
      (Whisper.dlLoop (pre ++ ev :: rest) fs prog dl hs effs).result =
        .error .DownloadCancelled
      ∧ (Whisper.dlLoop (pre ++ ev :: rest) fs prog dl hs effs).fs =
        { fs with tempExists := false }
      ∧ (Whisper.dlLoop (pre ++ ev :: rest) fs prog dl hs effs).prog = none := by
  intro pre
  induction pre with
  | nil =>
    intro _ fs prog dl hs effs
    simp [Whisper.dlLoop, hev]
  | cons e pre ih =>
    intro hpre fs prog dl hs effs
    have he := hpre e (by simp)
    have hpre2 : ∀ x ∈ pre, Whisper.cleanEvent x = true := fun x hx =>
      hpre x (by simp [hx])
    simp only [Whisper.cleanEvent, Bool.and_eq_true, Bool.not_eq_eq_eq_not,
      Bool.not_true] at he
    obtain ⟨⟨hcf, hco⟩, hwo⟩ := he
    obtain ⟨c, hc⟩ := (exOk_iff _).mp hco
    obtain ⟨u, hw⟩ := (exOk_iff _).mp hwo
    simp only [List.cons_append, Whisper.dlLoop, hcf, hc, hw]
    exact ih hpre2 _ _ _ _ _

/-- A run of clean iterations completes the loop: the filesystem facts are
untouched, the hash accumulates exactly the streamed bytes, and the progress
cell keeps its presence. -/
theorem dlLoop_clean_run :
    ∀ l, (∀ e ∈ l, Whisper.cleanEvent e = true) →
    ∀ fs prog dl hs effs,
      (Whisper.dlLoop l fs prog dl hs effs).result = .ok ()
      ∧ (Whisper.dlLoop l fs prog dl hs effs).fs = fs
      ∧ (Whisper.dlLoop l fs prog dl hs effs).hashed =
          hs ++ Whisper.eventsBytes l
      ∧ (Whisper.dlLoop l fs prog dl hs effs).prog.isSome = prog.isSome := by
  intro l
  induction l with
  | nil =>
    intro _ fs prog dl hs effs
    simp [Whisper.dlLoop, Whisper.eventsBytes]
  | cons e rest ih =>
    intro hcl fs prog dl hs effs
    have he := hcl e (by simp)
    have hcl2 : ∀ x ∈ rest, Whisper.cleanEvent x = true := fun x hx =>
      hcl x (by simp [hx])
    simp only [Whisper.cleanEvent, Bool.and_eq_true, Bool.not_eq_eq_eq_not,
      Bool.not_true] at he
    obtain ⟨⟨hcf, hco⟩, hwo⟩ := he
    obtain ⟨c, hc⟩ := (exOk_iff _).mp hco
    obtain ⟨u, hw⟩ := (exOk_iff _).mp hwo
    have ihx := ih hcl2 fs
      (if e.tick then
        prog.map (fun p =>
          { p with downloadedBytes := dl + c.length, speedBps := e.speedSample })
       else prog)
      (dl + c.length) (hs ++ c) (effs ++ [.writeChunk])
    simp only [Whisper.dlLoop, hcf, hc, hw, Bool.false_eq_true, if_false,
      Whisper.eventsBytes, Whisper.eventBytes]
    refine ⟨ihx.1, ihx.2.1, ?_, ?_⟩
    · rw [ihx.2.2.1, List.append_assoc]
    · rw [ihx.2.2.2]
      cases htick : e.tick <;> cases prog <;> simp

/-- The download loop never yields `HashVerificationFailed`. -/
theorem dlLoop_no_hash_failure :
    ∀ l fs prog dl hs effs,
      (Whisper.dlLoop l fs prog dl hs effs).result ≠
        .error .HashVerificationFailed := by
  intro l
  induction l with
  | nil => intro fs prog dl hs effs; simp [Whisper.dlLoop]
  | cons e rest ih =>
    intro fs prog dl hs effs
    by_cases hcf : e.cancelFlag = true
    · simp [Whisper.dlLoop, hcf]
    · rw [Bool.not_eq_true] at hcf
      cases hc : e.chunkResult with
      | error msg => simp [Whisper.dlLoop, hcf, hc]
      | ok c =>
        cases hw : e.writeResult with
        | error msg => simp [Whisper.dlLoop, hcf, hc, hw]
        | ok u =>
          simp only [Whisper.dlLoop, hcf, hc, hw, Bool.false_eq_true, if_false]
          exact ih _ _ _ _ _

/-- The download loop never touches the final path, and removes the temp
file whenever it returns `DownloadCancelled`. -/
theorem dlLoop_fs_facts :
    ∀ l fs prog dl hs effs,
      (Whisper.dlLoop l fs prog dl hs effs).fs.finalExists = fs.finalExists
      ∧ ((Whisper.dlLoop l fs prog dl hs effs).result =
          .error .DownloadCancelled →
        (Whisper.dlLoop l fs prog dl hs effs).fs.tempExists = false) := by
  intro l
  induction l with
  | nil => intro fs prog dl hs effs; simp [Whisper.dlLoop]
  | cons e rest ih =>
    intro fs prog dl hs effs
    by_cases hcf : e.cancelFlag = true
    · simp [Whisper.dlLoop, hcf]
    · rw [Bool.not_eq_true] at hcf
      cases hc : e.chunkResult with
      | error msg => simp [Whisper.dlLoop, hcf, hc]
      | ok c =>
        cases hw : e.writeResult with
        | error msg => simp [Whisper.dlLoop, hcf, hc, hw]
        | ok u =>
          simp only [Whisper.dlLoop, hcf, hc, hw, Bool.false_eq_true, if_false]
          exact ih _ _ _ _ _

/-- `dlRun` never yields `HashVerificationFailed`. -/
theorem dlRun_no_hash (env : Whisper.DlEnv) (model : Whisper.WhisperModel)
    (fs0 : Whisper.FsState) :
    (Whisper.dlRun env model fs0).result ≠ .error .HashVerificationFailed :=
  dlLoop_no_hash_failure env.chunks _ _ 0 [] _

/-- `dlRun` never touches the final path and removes the temp file whenever
it returns `DownloadCancelled`. -/
theorem dlRun_fs_facts (env : Whisper.DlEnv) (model : Whisper.WhisperModel)
    (fs0 : Whisper.FsState) :
    (Whisper.dlRun env model fs0).fs.finalExists = fs0.finalExists
    ∧ ((Whisper.dlRun env model fs0).result = .error .DownloadCancelled →
      (Whisper.dlRun env model fs0).fs.tempExists = false) :=
  dlLoop_fs_facts env.chunks _ _ 0 [] _

/-- When the cancellation flag reads true at some chunk boundary of the
stream (after clean iterations only), `dlRun` cancels: temp removed,
progress cleared. -/
theorem dlRun_cancel (env : Whisper.DlEnv) (model : Whisper.WhisperModel)
    (fs0 : Whisper.FsState) (pre : List Whisper.ChunkEvent)
    (ev : Whisper.ChunkEvent) (rest : List Whisper.ChunkEvent)
    (hchunks : env.chunks = pre ++ ev :: rest)
    (hpre : ∀ e ∈ pre, Whisper.cleanEvent e = true)
    (hev : ev.cancelFlag = true) :
    (Whisper.dlRun env model fs0).result = .error .DownloadCancelled
    ∧ (Whisper.dlRun env model fs0).fs = ⟨false, fs0.finalExists⟩
    ∧ (Whisper.dlRun env model fs0).prog = none := by
  have h := dlLoop_cancel ev hev rest pre hpre
    { fs0 with tempExists := true }
    ((some (Whisper.dlProgInit model)).map
      (fun p =>
        { p with totalBytes := env.contentLength.getD model.expected_size }))
    0 [] [.httpGet, .createTemp]
  simpa [Whisper.dlRun, hchunks] using h

/-- When every iteration of the stream is clean, `dlRun` completes with the
temp file in place, the full stream hashed, and a live progress cell. -/
theorem dlRun_clean (env : Whisper.DlEnv) (model : Whisper.WhisperModel)
    (fs0 : Whisper.FsState)
    (hclean : ∀ e ∈ env.chunks, Whisper.cleanEvent e = true) :
    (Whisper.dlRun env model fs0).result = .ok ()
    ∧ (Whisper.dlRun env model fs0).fs = { fs0 with tempExists := true }
    ∧ (Whisper.dlRun env model fs0).hashed = Whisper.eventsBytes env.chunks
    ∧ (Whisper.dlRun env model fs0).prog.isSome = true := by
  have h := dlLoop_clean_run env.chunks hclean
    { fs0 with tempExists := true }
    ((some (Whisper.dlProgInit model)).map
      (fun p =>
        { p with totalBytes := env.contentLength.getD model.expected_size }))
    0 [] [.httpGet, .createTemp]
  simpa [Whisper.dlRun] using h

/-- C5: with free space below twice the model's expected size,
`download_model` fails `InsufficientSpace` immediately: no network request,
no temp file, and the shared progress cell untouched (empty effect trace,
state returned exactly as given). -/
theorem download_insufficient_space_preflight (env : Whisper.DlEnv)
    (model : Whisper.WhisperModel) (fs0 : Whisper.FsState)
    (prog0 : Option Whisper.DownloadProgress) (a : Nat)
    (hA : env.availableSpace = .ok a)
    (hlt : a < model.expected_size * 2) :
    Whisper.download_model env model fs0 prog0 =
      ⟨.error .InsufficientSpace, fs0, prog0, []⟩ := by
  simp [Whisper.download_model, hA, hlt]

/-- Witness for C5: 1 byte less than twice the Tiny model's size. -/
theorem download_insufficient_space_preflight_witness :
    Whisper.download_model lowSpaceEnv .Tiny ⟨false, false⟩ none =
      ⟨.error .InsufficientSpace, ⟨false, false⟩, none, []⟩ :=
  download_insufficient_space_preflight lowSpaceEnv .Tiny ⟨false, false⟩ none
    (Whisper.WhisperModel.Tiny.expected_size * 2 - 1) rfl (by decide)

/-- C3: when the cancellation flag is set at a chunk boundary (all earlier
iterations clean), `download_model` returns `DownloadCancelled`, deletes the
temp file, clears the shared progress cell, and leaves the final path
exactly as it was. -/
theorem download_cancelled_cleanup (env : Whisper.DlEnv)
    (model : Whisper.WhisperModel) (fs0 : Whisper.FsState)
    (prog0 : Option Whisper.DownloadProgress) (a : Nat)
    (pre : List Whisper.ChunkEvent) (ev : Whisper.ChunkEvent)
    (rest : List Whisper.ChunkEvent)
    (hA : env.availableSpace = .ok a)
    (hsp : ¬ a < model.expected_size * 2)
    (hsend : env.sendResult = .ok ())
    (hct : env.createTempResult = .ok ())
    (hchunks : env.chunks = pre ++ ev :: rest)
    (hpre : ∀ e ∈ pre, Whisper.cleanEvent e = true)
    (hev : ev.cancelFlag = true) :
    (Whisper.download_model env model fs0 prog0).result =
      .error .DownloadCancelled
    ∧ (Whisper.download_model env model fs0 prog0).fs =
      ⟨false, fs0.finalExists⟩
    ∧ (Whisper.download_model env model fs0 prog0).prog = none := by
  have hr := dlRun_cancel env model fs0 pre ev rest hchunks hpre hev
  simp [Whisper.download_model, hA, hsp, hsend, hct, hr.1, hr.2.1, hr.2.2]

/-- Counterexample to C2: a mid-stream network error (first chunk fails
after the temp file was created) returns `DownloadError` and leaves the
`.downloading` temp file on disk — the early `?` return skips the cleanup
that only the cancellation branch performs. -/
theorem download_error_can_leave_temp_file :
    (Whisper.download_model netErrEnv .Tiny ⟨false, false⟩ none).result =
      .error (.DownloadError "connection reset")
    ∧ (Whisper.download_model netErrEnv .Tiny ⟨false, false⟩ none).fs.tempExists
      = true := by
  constructor <;> rfl

/-- C2 (amended): for every error return of `download_model` no file appears
at the model's final path (the final path is only created by the rename on
the all-success path), and the temp file is removed when the error is
`DownloadCancelled`; a mid-stream `DownloadError`/`IoError` may leave the
temp file behind. -/
theorem download_error_fs_state (env : Whisper.DlEnv)
    (model : Whisper.WhisperModel) (fs0 : Whisper.FsState)
    (prog0 : Option Whisper.DownloadProgress) (err : Whisper.WhisperError)
    (hres : (Whisper.download_model env model fs0 prog0).result = .error err) :
    (Whisper.download_model env model fs0 prog0).fs.finalExists =
      fs0.finalExists
    ∧ (err = .DownloadCancelled →
      (Whisper.download_model env model fs0 prog0).fs.tempExists = false) := by
  have hf := dlRun_fs_facts env model fs0
  rcases hA : env.availableSpace with e | a
  · simp [Whisper.download_model, hA] at hres ⊢
    intro h; subst h; simp at hres
  by_cases hlt : a < model.expected_size * 2
  · simp [Whisper.download_model, hA, hlt] at hres ⊢
    intro h; subst h; simp at hres
  rcases hsend : env.sendResult with e | u
  · simp [Whisper.download_model, hA, hlt, hsend] at hres ⊢
    intro h; subst h; simp at hres
  rcases hct : env.createTempResult with e | u2
  · simp [Whisper.download_model, hA, hlt, hsend, hct] at hres ⊢
    intro h; subst h; simp at hres
  rcases hlo : (Whisper.dlRun env model fs0).result with e2 | u3
  · simp [Whisper.download_model, hA, hlt, hsend, hct, hlo] at hres ⊢
    refine ⟨hf.1, ?_⟩
    intro h
    subst h
    subst hres
    exact hf.2 hlo
  rcases hfl : env.flushResult with e | u4
  · simp [Whisper.download_model, hA, hlt, hsend, hct, hlo, hfl] at hres ⊢
    refine ⟨hf.1, ?_⟩
    intro h; subst h; simp at hres
  rcases hrn : env.renameResult with e | u5
  · simp [Whisper.download_model, hA, hlt, hsend, hct, hlo, hfl, hrn] at hres ⊢
    refine ⟨hf.1, ?_⟩
    intro h; subst h; simp at hres
  · simp [Whisper.download_model, hA, hlt, hsend, hct, hlo, hfl, hrn] at hres

/-- Witness for the amended C2 at a concrete cancelled download: no final
file appears and the temp file is gone. -/
theorem download_error_fs_state_witness :
    (Whisper.download_model cancelEnv .Tiny ⟨false, false⟩ none).fs.finalExists
      = false
    ∧ (Whisper.download_model cancelEnv .Tiny ⟨false, false⟩ none).fs.tempExists
      = false := by
  have h := download_error_fs_state cancelEnv .Tiny ⟨false, false⟩ none
    .DownloadCancelled rfl
  exact ⟨h.1, h.2 rfl⟩

/-- C4: `download_model` never returns `HashVerificationFailed`; whenever
the stream runs to completion (clean iterations, flush and rename succeed)
the call succeeds — final file in place, temp gone, progress marked complete
— and the SHA-256 digest of the streamed bytes is merely logged alongside
the descriptor's expected hash head, whatever its value. -/
theorem download_no_hash_rejection (env : Whisper.DlEnv)
    (model : Whisper.WhisperModel) (fs0 : Whisper.FsState)
    (prog0 : Option Whisper.DownloadProgress) :
    (Whisper.download_model env model fs0 prog0).result ≠
      .error .HashVerificationFailed
    ∧ (∀ a, env.availableSpace = .ok a → ¬ a < model.expected_size * 2 →
        env.sendResult = .ok () → env.createTempResult = .ok () →
        (∀ e ∈ env.chunks, Whisper.cleanEvent e = true) →
        env.flushResult = .ok () → env.renameResult = .ok () →
        (Whisper.download_model env model fs0 prog0).result = .ok ()
        ∧ (Whisper.download_model env model fs0 prog0).fs = ⟨false, true⟩
        ∧ (∃ p, (Whisper.download_model env model fs0 prog0).prog = some p
            ∧ p.complete = true)
        ∧ Whisper.DlEffect.logHash
            ((env.sha256hex (Whisper.eventsBytes env.chunks)).take 16)
            model.expected_hash_head ∈
          (Whisper.download_model env model fs0 prog0).effects) := by
  constructor
  · rcases hA : env.availableSpace with e | a
    · simp [Whisper.download_model, hA]
    by_cases hlt : a < model.expected_size * 2
    · simp [Whisper.download_model, hA, hlt]
    rcases hsend : env.sendResult with e | u
    · simp [Whisper.download_model, hA, hlt, hsend]
    rcases hct : env.createTempResult with e | u2
    · simp [Whisper.download_model, hA, hlt, hsend, hct]
    rcases hlo : (Whisper.dlRun env model fs0).result with e2 | u3
    · have hn := dlRun_no_hash env model fs0
      rw [hlo] at hn
      simp [Whisper.download_model, hA, hlt, hsend, hct, hlo]
      simpa using hn
    rcases hfl : env.flushResult with e | u4
    · simp [Whisper.download_model, hA, hlt, hsend, hct, hlo, hfl]
    rcases hrn : env.renameResult with e | u5
    · simp [Whisper.download_model, hA, hlt, hsend, hct, hlo, hfl, hrn]
    · simp [Whisper.download_model, hA, hlt, hsend, hct, hlo, hfl, hrn]
  · intro a hA hlt hsend hct hclean hfl hrn
    have hcl := dlRun_clean env model fs0 hclean
    obtain ⟨p, hp⟩ := Option.isSome_iff_exists.mp hcl.2.2.2
    refine ⟨?_, ?_, ?_, ?_⟩ <;>
      simp [Whisper.download_model, hA, hlt, hsend, hct, hcl.1, hcl.2.2.1,
        hfl, hrn, hp]

/-- `load_model` never changes the manager's settings. -/
theorem load_model_settings (env : Whisper.LoadEnv) (m : Whisper.MgrState) :
    (Whisper.load_model env m).2.settings = m.settings := by
  simp only [Whisper.load_model]
  split
  · rfl
  · split
    · rfl
    · split <;> rfl

/-- C8: with a live inference context, a WAV file that fails to open or
yields an empty sample set makes `transcribe` fail `InvalidAudioFile`
without ever touching the inference engine: no inference state is created
and no inference run starts (empty effect trace). -/
theorem transcribe_invalid_audio (env : Whisper.TrEnv) (m : Whisper.MgrState)
    (hctx : m.hasContext = true)
    (hbad : (∃ e, env.wavOpen = .error e) ∨
      (∃ spec, env.wavOpen = .ok spec ∧ Whisper.readSamples env spec = [])) :
    (∃ msg, (Whisper.transcribe env m).1 = .error (.InvalidAudioFile msg))
    ∧ (Whisper.transcribe env m).2.2 = [] := by
  rcases hbad with ⟨e, he⟩ | ⟨spec, hs, hempty⟩
  · refine ⟨⟨e, ?_⟩, ?_⟩ <;> simp [Whisper.transcribe, hctx, he]
  · refine ⟨⟨"Empty audio file", ?_⟩, ?_⟩ <;>
      simp [Whisper.transcribe, hctx, hs, hempty]

/-- Witness for C8: a WAV whose only sample read fails, against a manager
with a live context. -/
theorem transcribe_invalid_audio_witness :
    (Whisper.transcribe emptyWavEnv mgrAuto).1 =
      .error (.InvalidAudioFile "Empty audio file")
    ∧ (Whisper.transcribe emptyWavEnv mgrAuto).2.2 = [] :=
  ⟨rfl,
   (transcribe_invalid_audio emptyWavEnv mgrAuto rfl
     (Or.inr ⟨⟨1, 16000, 16, .int⟩, rfl, rfl⟩)).2⟩

/-- C10: every successful `transcribe` call made with language `Auto`
reports the constant language `"de"`, whatever the audio and whatever the
model detected; with an explicit language setting it reports that setting's
code. -/
theorem transcribe_language_field (env : Whisper.TrEnv)
    (m m2 : Whisper.MgrState) (r : Whisper.TranscriptionResult)
    (effs : List Whisper.TrEffect)
    (hok : Whisper.transcribe env m = (.ok r, m2, effs)) :
    (m.settings.language = .Auto → r.language = "de")
    ∧ (m.settings.language ≠ .Auto →
      m.settings.language.code = some r.language) := by
  simp only [Whisper.transcribe] at hok
  rcases hls : (if ¬ m.hasContext then Whisper.load_model env.load m
    else (.ok (), m)) with ⟨res, m1⟩
  rw [hls] at hok
  have hm1 : m1.settings = m.settings := by
    by_cases hc : m.hasContext
    · rw [if_neg (by simp [hc])] at hls
      injection hls with h1 h2
      rw [← h2]
    · rw [if_pos (by simp [hc])] at hls
      have hl := load_model_settings env.load m
      rw [hls] at hl
      exact hl
  cases res with
  | error e => simp at hok
  | ok u =>
    by_cases hcx : m1.hasContext
    · rcases hw : env.wavOpen with e | spec
      · simp [hcx, hw] at hok
      by_cases hemp : (Whisper.readSamples env spec).isEmpty
      · simp [hcx, hw, hemp] at hok
      rcases hcs : env.createStateResult with e | u2
      · simp [hcx, hw, hemp, hcs] at hok
      rcases hfr : env.fullResult with e | u3
      · simp [hcx, hw, hemp, hcs, hfr] at hok
      rcases hns : env.numSegments with e | n
      · simp [hcx, hw, hemp, hcs, hfr, hns] at hok
      rcases hsl : Whisper.segmentsLoop env (List.range n) "" [] with e | pr
      · simp [hcx, hw, hemp, hcs, hfr, hns, hsl] at hok
      obtain ⟨ft, segs⟩ := pr
      simp only [hcx, hw, hemp, hcs, hfr, hns, hsl, not_true_eq_false,
        Bool.false_eq_true, if_false, if_neg, Prod.mk.injEq,
        Except.ok.injEq] at hok
      obtain ⟨hr, hm2, heff⟩ := hok
      subst hr
      constructor
      · intro ha
        simp [hm1, ha]
      · intro ha
        cases hlg : m.settings.language with
        | Auto => exact absurd hlg ha
        | German => simp [hm1, hlg, Whisper.WhisperLanguage.code]
        | English => simp [hm1, hlg, Whisper.WhisperLanguage.code]
    · simp [hcx] at hok

/-- Witness for C10: a concrete successful transcription with language
`Auto` reports `"de"`. -/
theorem transcribe_language_field_witness :
    mgrAuto.settings.language = .Auto
    ∧ (⟨("" ++ "hallo" ++ " ").trim, "de", [⟨"hallo", 0, 1500⟩], 3⟩ :
        Whisper.TranscriptionResult).language = "de" :=
  ⟨rfl,
   (transcribe_language_field okWavEnv mgrAuto mgrAuto
     ⟨("" ++ "hallo" ++ " ").trim, "de", [⟨"hallo", 0, 1500⟩], 3⟩
     [.createState, .runFull] rfl).1 rfl⟩

/-- Witness for C3: cancellation at the first chunk of a concrete download
leaves no temp file, no final file, and a cleared progress cell. -/
theorem download_cancelled_cleanup_witness :
    (Whisper.download_model cancelEnv .Tiny ⟨false, false⟩ none).result =
      .error .DownloadCancelled
    ∧ (Whisper.download_model cancelEnv .Tiny ⟨false, false⟩ none).fs =
      ⟨false, false⟩
    ∧ (Whisper.download_model cancelEnv .Tiny ⟨false, false⟩ none).prog =
      none :=
  download_cancelled_cleanup cancelEnv .Tiny ⟨false, false⟩ none
    (Whisper.WhisperModel.Tiny.expected_size * 2) []
    ⟨true, .ok [1, 2], .ok (), false, 0⟩ []
    rfl (by decide) rfl rfl rfl (by simp) rfl

/-- Witness for C4: a concrete completed download succeeds, installs the
final file, marks progress complete, and logs a digest that does not match
the expected hash head. -/
theorem download_no_hash_rejection_witness :
    (Whisper.download_model cleanEnv .Tiny ⟨false, false⟩ none).result = .ok ()
    ∧ (Whisper.download_model cleanEnv .Tiny ⟨false, false⟩ none).fs =
      ⟨false, true⟩
    ∧ (∃ p, (Whisper.download_model cleanEnv .Tiny ⟨false, false⟩ none).prog =
        some p ∧ p.complete = true)
    ∧ Whisper.DlEffect.logHash
        ((cleanEnv.sha256hex (Whisper.eventsBytes cleanEnv.chunks)).take 16)
        Whisper.WhisperModel.Tiny.expected_hash_head ∈
      (Whisper.download_model cleanEnv .Tiny ⟨false, false⟩ none).effects
    ∧ ((cleanEnv.sha256hex (Whisper.eventsBytes cleanEnv.chunks)).take 16).take 7
      ≠ Whisper.WhisperModel.Tiny.expected_hash_head := by
  have h := (download_no_hash_rejection cleanEnv .Tiny ⟨false, false⟩ none).2
    (Whisper.WhisperModel.Tiny.expected_size * 2) rfl (by decide) rfl rfl
    (by decide) rfl rfl
  exact ⟨h.1, h.2.1, h.2.2.1, h.2.2.2, by decide⟩

/-- Counterexample to C7 as stated: on an empty buffer the error payload is
the string `No audio data recorded`, not `no audio data`. -/
theorem stop_recording_message_counterexample :
    (Audio.stop_recording ⟨9, fun l => .ok l, fun _ => .ok "out.wav"⟩
      ⟨true, [], 0, 44100, some 2, true, none, true⟩).1 ≠
      .error (.WavWriteError "no audio data")
    ∧ (Audio.stop_recording ⟨9, fun l => .ok l, fun _ => .ok "out.wav"⟩
      ⟨true, [], 0, 44100, some 2, true, none, true⟩).1 =
      .error (.WavWriteError "No audio data recorded") := by
  constructor
  · intro h
    injection h with h1
    injection h1 with h2
    exact absurd h2 (by decide)
  · rfl
